import Mathlib

/-!
Verification of the Tool-Augmented Conversation Orchestrator
(`project2-backend/agent.py` and `project2-backend/tools.py`).

The Python source is embedded shallowly: pure transformations become Lean
functions, Python exceptions become `Except`, the external reasoning service
is a scripted list of replies, and the standard-library JSON parser is an
abstract parameter pinned by hypotheses at the concrete inputs used.
-/

namespace SciSciNet

/-! ## Python string primitives used by the source -/

/-- One step of Python `str.replace`, on character lists.  The fuel argument
is set to the length of the subject string by the wrapper, which is always
enough because every step consumes at least one character. -/
def replaceFuel (pat rep : List Char) : Nat → List Char → List Char
  | 0, s => s
  | _ + 1, [] => []
  | fuel + 1, c :: rest =>
    if pat.isPrefixOf (c :: rest) && !pat.isEmpty then
      rep ++ replaceFuel pat rep fuel ((c :: rest).drop pat.length)
    else
      c :: replaceFuel pat rep fuel rest

/-- Python `s.replace(pat, rep)`: replace every non-overlapping occurrence of
`pat` in `s` by `rep`, scanning left to right. -/
def strReplace (s pat rep : String) : String :=
  String.mk (replaceFuel pat.data rep.data s.data.length s.data)

/-- Occurrence test: does `pat` occur as a contiguous sublist of `s`? -/
def containsSubList (pat : List Char) : List Char → Bool
  | [] => pat.isEmpty
  | c :: rest => pat.isPrefixOf (c :: rest) || containsSubList pat rest

/-- Python `needle in hay` for strings (substring test). -/
def strContainsSub (hay needle : String) : Bool :=
  containsSubList needle.data hay.data

/-! ## Type normalization (agent.py line 64)

`param_info['type'].replace('int', 'integer').replace('str', 'string')
                   .replace('bool', 'boolean')` -/

/-- The chained-`replace` type normalization from `_get_tools_for_api`. -/
def normalizeType (t : String) : String :=
  strReplace (strReplace (strReplace t "int" "integer") "str" "string") "bool" "boolean"

/-- `t` mentions none of the three internal type tokens as a substring. -/
def noTypeTokenSub (t : String) : Bool :=
  !containsSubList "int".data t.data
    && !containsSubList "str".data t.data
    && !containsSubList "bool".data t.data

/-! ## JSON values

Values produced by the standard-library JSON parser and passed around as
tool arguments, tool results and visualization-spec candidates. -/

inductive Json where
  | null
  | bool (b : Bool)
  | num (n : Int)
  | str (s : String)
  | arr (elems : List Json)
  | obj (fields : List (String × Json))

/-- A Python keyword-argument map (`**args`). -/
abbrev Args := List (String × Json)

mutual

/-- `json.dumps` (string escaping elided: the payloads serialized by the
source contain no characters needing escapes). -/
def jsonDumps : Json → String
  | Json.null => "null"
  | Json.bool b => if b then "true" else "false"
  | Json.num n => toString n
  | Json.str s => "\x22" ++ s ++ "\x22"
  | Json.arr xs => "[" ++ jsonDumpsElems xs ++ "]"
  | Json.obj kvs => "\x7b" ++ jsonDumpsFields kvs ++ "\x7d"

def jsonDumpsElems : List Json → String
  | [] => ""
  | [x] => jsonDumps x
  | x :: y :: rest => jsonDumps x ++ ", " ++ jsonDumpsElems (y :: rest)

def jsonDumpsFields : List (String × Json) → String
  | [] => ""
  | [kv] => "\x22" ++ kv.1 ++ "\x22: " ++ jsonDumps kv.2
  | kv :: kv2 :: rest =>
    "\x22" ++ kv.1 ++ "\x22: " ++ jsonDumps kv.2 ++ ", " ++ jsonDumpsFields (kv2 :: rest)

end

/-! ## Tool Registry (`SciSciNetAgent._get_tools_for_api`, agent.py 48-75) -/

/-- One entry of a descriptor's `parameters` dict in `TOOL_DESCRIPTIONS`. -/
structure ParamInfo where
  type : String
  description : String
  optional : Option Bool
  default : Option Json

/-- One entry of `TOOL_DESCRIPTIONS` (tools.py 161-205). -/
structure ToolDescription where
  name : String
  description : String
  parameters : List (String × ParamInfo)

/-- One property of the derived `input_schema`. -/
structure PropSchema where
  type : String
  description : String

/-- The Claude-API-facing tool shape built by `_get_tools_for_api`. -/
structure ToolSchema where
  name : String
  description : String
  properties : List (String × PropSchema)
  required : List String

/-- The `required` list built by the parameter loop: a name is appended iff
`not param_info.get('optional', False)` and `'default' not in param_info`. -/
def requiredOf : List (String × ParamInfo) → List String
  | [] => []
  | (pn, pinfo) :: rest =>
    if pinfo.optional.getD false then requiredOf rest
    else if pinfo.default.isSome then requiredOf rest
    else pn :: requiredOf rest

/-- The schema built for one descriptor by the loop body of
`_get_tools_for_api`. -/
def toolSchemaOf (name : String) (info : ToolDescription) : ToolSchema :=
  { name := name
    description := info.description
    properties := info.parameters.map fun p =>
      (p.1, { type := normalizeType p.2.type, description := p.2.description })
    required := requiredOf info.parameters }

/-- `_get_tools_for_api`: derive a schema for every descriptor, in order. -/
def get_tools_for_api (descs : List (String × ToolDescription)) : List ToolSchema :=
  descs.map fun d => toolSchemaOf d.1 d.2

/-- The concrete `TOOL_DESCRIPTIONS` table of tools.py. -/
def TOOL_DESCRIPTIONS : List (String × ToolDescription) :=
  [ ("query_papers_by_year",
      { name := "query_papers_by_year"
        description := "按年份统计论文数量，返回每年的论文数、引用总数和专利总数"
        parameters :=
          [ ("start_year", { type := "int", description := "起始年份",
                             optional := none, default := some (Json.num 2014) }),
            ("end_year", { type := "int", description := "结束年份",
                           optional := none, default := some (Json.num 2024) }) ] }),
    ("query_top_authors",
      { name := "query_top_authors"
        description := "查询排名靠前的作者，可按论文数、h-index或生产力排序"
        parameters :=
          [ ("top_n", { type := "int", description := "返回数量",
                        optional := none, default := some (Json.num 10) }),
            ("metric", { type := "str",
                         description := "排序指标: paper_count, h_index, productivity",
                         optional := none, default := some (Json.str "paper_count") }) ] }),
    ("query_citation_stats",
      { name := "query_citation_stats"
        description := "获取引用统计信息，包括总论文数、内部引用数、平均引用等"
        parameters := [] }),
    ("query_papers_with_filters",
      { name := "query_papers_with_filters"
        description := "根据条件筛选论文，支持年份、最低引用数、是否有专利"
        parameters :=
          [ ("year", { type := "int", description := "年份过滤",
                       optional := some true, default := none }),
            ("min_citations", { type := "int", description := "最低引用数",
                                optional := some true, default := none }),
            ("has_patents", { type := "bool", description := "是否有专利引用",
                              optional := some true, default := none }),
            ("limit", { type := "int", description := "返回数量限制",
                        optional := none, default := some (Json.num 20) }) ] }),
    ("query_collaboration_stats",
      { name := "query_collaboration_stats"
        description := "获取合作统计，包括作者数、平均作者数等"
        parameters := [] }),
    ("query_yearly_trend",
      { name := "query_yearly_trend"
        description := "查询年度趋势，可选择论文数、引用数或专利数"
        parameters :=
          [ ("metric", { type := "str", description := "指标: papers, citations, patents",
                         optional := none, default := some (Json.str "papers") }) ] }) ]

/-! ## Tool Execution Engine (`SciSciNetAgent._execute_tool`, agent.py 77-86)

A tool implementation is a function from a keyword-argument map to either a
result value or the message of the fault it raised (`str(e)`); the bodies of
the查询 functions read external parquet files, so they stay abstract. -/

/-- `_execute_tool`: unknown names yield an error payload, a fault raised by
the matched function is caught and converted to the same error shape, and a
successful result is returned unmodified.  The function is total: no case
propagates a fault. -/
def execute_tool (table : List (String × (Args → Except String Json)))
    (name : String) (args : Args) : Json :=
  match table.lookup name with
  | none => Json.obj [("error", Json.str ("Unknown tool: " ++ name))]
  | some f =>
    match f args with
    | Except.ok result => result
    | Except.error e => Json.obj [("error", Json.str e)]

/-- The `TOOLS` dispatch table of tools.py (208-215), parameterized by the
six data-access implementations. -/
def TOOLS (q_papers_by_year q_top_authors q_citation_stats q_papers_with_filters
    q_collaboration_stats q_yearly_trend : Args → Except String Json) :
    List (String × (Args → Except String Json)) :=
  [ ("query_papers_by_year", q_papers_by_year),
    ("query_top_authors", q_top_authors),
    ("query_citation_stats", q_citation_stats),
    ("query_papers_with_filters", q_papers_with_filters),
    ("query_collaboration_stats", q_collaboration_stats),
    ("query_yearly_trend", q_yearly_trend) ]

/-! ## Visualization Spec Extractor (agent.py 152-170)

The source scans the final answer with
`re.findall(r'<fence>(?:vega-lite|json)\s*\n?([\s\S]*?)<fence>', text)`,
`json.loads`-parses each candidate inside a `try` that catches only
`json.JSONDecodeError`, and accepts the first parsed document passing
`'$schema' in spec and 'vega' in spec.get('$schema', '')` or
`'data' in spec and ('mark' in spec or 'layer' in spec)`.
The membership tests are Python's polymorphic `in`: key lookup on dicts,
element equality on lists, substring test on strings, and a `TypeError`
on any other operand; `spec.get` on a non-dict is an `AttributeError`.
Neither of those faults is caught by the `except json.JSONDecodeError`. -/

/-- A Python fault escaping the extractor. -/
inductive PyError where
  | typeError
  | attributeError
deriving DecidableEq

/-- The characters matched by `\s` / stripped by `str.strip` (ASCII range). -/
def isPySpace (c : Char) : Bool :=
  c == ' ' || c == '\t' || c == '\n' || c == '\r' || c == '\x0b' || c == '\x0c'

/-- Python `str.strip()`. -/
def pyStrip (s : String) : String :=
  String.mk (((s.data.dropWhile isPySpace).reverse.dropWhile isPySpace).reverse)

/-- Drop `pat` from the front of `s`, if it is a prefix. -/
def stripPre (pat s : List Char) : Option (List Char) :=
  match pat, s with
  | [], rest => some rest
  | _ :: _, [] => none
  | p :: ps, c :: cs => if p == c then stripPre ps cs else none

/-- Split `s` at the first occurrence of `pat`: the part before it and the
part after it (the lazy `([\s\S]*?)` match up to the closing fence). -/
def splitAtSub (pat : List Char) : List Char → Option (List Char × List Char)
  | [] => if pat.isEmpty then some ([], []) else none
  | c :: rest =>
    if pat.isPrefixOf (c :: rest) then some ([], (c :: rest).drop pat.length)
    else
      match splitAtSub pat rest with
      | some (pre, post) => some (c :: pre, post)
      | none => none

def fenceChars : List Char := "```".data

def vegaLabelChars : List Char := "vega-lite".data

def jsonLabelChars : List Char := "json".data

/-- Match the opening fence plus one of the two recognized labels, returning
the remainder after the label (the alternation tries `vega-lite`, then
`json`, as in the pattern). -/
def tryOpenBlock (s : List Char) : Option (List Char) :=
  match stripPre fenceChars s with
  | none => none
  | some r =>
    match stripPre vegaLabelChars r with
    | some r2 => some r2
    | none => stripPre jsonLabelChars r

/-- The left-to-right, non-overlapping scan of `re.findall`: at each
position, match fence+label, greedily skip `\s*\n?`, lazily capture up to
the next closing fence, and resume after it.  Fuel is the length of the
text; every step consumes at least one character. -/
def findBlocksFuel : Nat → List Char → List (List Char)
  | 0, _ => []
  | _ + 1, [] => []
  | fuel + 1, c :: rest =>
    match tryOpenBlock (c :: rest) with
    | some afterLabel =>
      match splitAtSub fenceChars (afterLabel.dropWhile isPySpace) with
      | some (captured, afterClose) => captured :: findBlocksFuel fuel afterClose
      | none => findBlocksFuel fuel rest
    | none => findBlocksFuel fuel rest

/-- All fenced-block candidates of the final answer, in document order. -/
def findBlocks (text : String) : List String :=
  (findBlocksFuel text.data.length text.data).map fun cs => String.mk cs

/-- Python `needle in v` for a string needle against a parsed JSON value. -/
def pyContains (needle : String) (v : Json) : Except PyError Bool :=
  match v with
  | Json.obj kvs => Except.ok (kvs.any fun kv => kv.1 == needle)
  | Json.arr xs =>
    Except.ok (xs.any fun x =>
      match x with
      | Json.str s => s == needle
      | _ => false)
  | Json.str s => Except.ok (strContainsSub s needle)
  | _ => Except.error PyError.typeError

/-- Python `v.get(key, dflt)`: defined on dicts, an `AttributeError` on any
other value. -/
def pyDictGet (v : Json) (key : String) (dflt : Json) : Except PyError Json :=
  match v with
  | Json.obj kvs =>
    Except.ok (match kvs.lookup key with
      | some x => x
      | none => dflt)
  | _ => Except.error PyError.attributeError

/-- The acceptance test applied to one parsed candidate, with Python's
short-circuit evaluation order:
`'$schema' in spec and 'vega' in spec.get('$schema', '')`, else
`'data' in spec and ('mark' in spec or 'layer' in spec)`. -/
def acceptSpec (spec : Json) : Except PyError Bool := do
  let hasSchema ← pyContains "$schema" spec
  let condA ←
    if hasSchema then do
      let sv ← pyDictGet spec "$schema" (Json.str "")
      pyContains "vega" sv
    else
      pure false
  if condA then
    pure true
  else do
    let hasData ← pyContains "data" spec
    if hasData then do
      let hasMark ← pyContains "mark" spec
      if hasMark then pure true else pyContains "layer" spec
    else
      pure false

/-- The candidate loop: parse failure (`json.JSONDecodeError`) skips to the
next candidate; the first accepted candidate is returned; a fault raised by
the acceptance test is not caught and escapes. -/
def scanBlocks (parse : String → Except Unit Json) :
    List String → Except PyError (Option Json)
  | [] => Except.ok none
  | cand :: rest =>
    match parse (pyStrip cand) with
    | Except.error _ => scanBlocks parse rest
    | Except.ok spec =>
      match acceptSpec spec with
      | Except.error e => Except.error e
      | Except.ok true => Except.ok (some spec)
      | Except.ok false => scanBlocks parse rest

/-- The extraction step of `chat`: collect candidates, return the first
accepted one (`vega_lite` stays `None` when no candidate is accepted). -/
def extractVegaLite (parse : String → Except Unit Json) (text : String) :
    Except PyError (Option Json) :=
  scanBlocks parse (findBlocks text)

/-- A concrete stand-in for `json.loads` used by witnesses: parse exactly the
listed strings, fail on everything else. -/
def parseTable (pairs : List (String × Json)) : String → Except Unit Json :=
  fun s =>
    match pairs.lookup s with
    | some v => Except.ok v
    | none => Except.error ()

/-! ## Conversation Orchestrator (`SciSciNetAgent.chat`, agent.py 88-176)

The external reasoning service is modelled as a script: the list of replies
it returns for the successive `messages.create` calls of one conversation.
The credential is held by the constructed agent; the service itself is a
black-box collaborator. -/

/-- One content part of a service reply or a history message. -/
inductive ContentBlock where
  | text (s : String)
  | toolUse (id : String) (name : String) (input : Args)
  | toolResult (tool_use_id : String) (content : String)

/-- The `content` field of a history message: the user's raw question is a
plain string, every other message carries a list of content parts. -/
inductive MsgContent where
  | str (s : String)
  | parts (blocks : List ContentBlock)

/-- One entry of the `messages` history. -/
structure Message where
  role : String
  content : MsgContent

/-- A service reply: Python reads `response.stop_reason` as a string. -/
structure Reply where
  stop_reason : String
  content : List ContentBlock

/-- One entry of `collected_data`: `{'tool': …, 'args': …, 'result': …}`. -/
structure ToolCallRecord where
  tool : String
  args : Args
  result : Json

/-- The body of `for tool_use in tool_uses`: execute each requested tool in
order, collecting a `ToolCallRecord` and a `tool_result` content part per
invocation (non-`tool_use` parts are skipped by the filter on line 116). -/
def runTools (table : List (String × (Args → Except String Json))) :
    List ContentBlock → List ToolCallRecord × List ContentBlock
  | [] => ([], [])
  | ContentBlock.toolUse id name input :: rest =>
    let result := execute_tool table name input
    let next := runTools table rest
    ({ tool := name, args := input, result := result } :: next.1,
      ContentBlock.toolResult id (jsonDumps result) :: next.2)
  | _ :: rest => runTools table rest

/-- The `while response.stop_reason == "tool_use"` loop: execute the round's
tool requests, append the assistant reply and one combined user-role
tool-result message to history, and consume the next scripted reply; `none`
models a round-trip that cannot be answered (script exhausted). -/
def chatLoop (table : List (String × (Args → Except String Json))) :
    List Reply → List Message → List ToolCallRecord → Reply →
      Option (List Message × List ToolCallRecord × Reply)
  | script, messages, collected, response =>
    if response.stop_reason == "tool_use" then
      let step := runTools table response.content
      match script with
      | [] => none
      | next :: rest =>
        chatLoop table rest
          (messages ++ [⟨"assistant", MsgContent.parts response.content⟩,
            ⟨"user", MsgContent.parts step.2⟩])
          (collected ++ step.1) next
    else
      some (messages, collected, response)

/-- Lines 146-149: concatenate the `text` attribute of every block that has
one, in order. -/
def textOfContent (blocks : List ContentBlock) : String :=
  blocks.foldl
    (fun acc b =>
      match b with
      | ContentBlock.text s => acc ++ s
      | _ => acc)
    ""

/-- The orchestrator instance; construction stores the resolved credential. -/
structure Agent where
  api_key : String

/-- Python `a or b` on optional strings: `None` and `''` are falsy. -/
def pyOrStr (a b : Option String) : Option String :=
  match a with
  | some s => if s == "" then b else some s
  | none => b

/-- `SciSciNetAgent.__init__` (agent.py 15-18): resolve the credential from
the argument or the environment, and raise
`ValueError("ANTHROPIC_API_KEY not found")` when the result is falsy. -/
def agent_init (api_key : Option String) (env_api_key : Option String) :
    Except String Agent :=
  match pyOrStr api_key env_api_key with
  | none => Except.error "ANTHROPIC_API_KEY not found"
  | some k =>
    if k == "" then Except.error "ANTHROPIC_API_KEY not found"
    else Except.ok { api_key := k }

/-- The value returned by `chat`. -/
structure ChatResult where
  text : String
  vega_lite : Option Json
  data : List ToolCallRecord

/-- `SciSciNetAgent.chat`: seed history with the user message, run the
tool-use loop against the scripted service, concatenate the final reply's
text, and extract the visualization spec.  The outer `Option` is exhaustion
of the script; the inner `Except` is the uncaught extractor fault. -/
def chat (agent : Agent) (table : List (String × (Args → Except String Json)))
    (parse : String → Except Unit Json) (script : List Reply)
    (user_message : String) : Option (Except PyError ChatResult) :=
  match script with
  | [] => none
  | first :: rest =>
    match chatLoop table rest [⟨"user", MsgContent.str user_message⟩] [] first with
    | none => none
    | some (_, collected, finalReply) =>
      let text_response := textOfContent finalReply.content
      match extractVegaLite parse text_response with
      | Except.error e => some (Except.error e)
      | Except.ok v =>
        some (Except.ok { text := text_response, vega_lite := v, data := collected })

/-- The record produced for one `tool_use` content part, `none` otherwise. -/
def recOfBlock (table : List (String × (Args → Except String Json)))
    (b : ContentBlock) : Option ToolCallRecord :=
  match b with
  | ContentBlock.toolUse _ name input =>
    some { tool := name, args := input, result := execute_tool table name input }
  | _ => none

/-- The `tool_result` part produced for one `tool_use` content part. -/
def trOfBlock (table : List (String × (Args → Except String Json)))
    (b : ContentBlock) : Option ContentBlock :=
  match b with
  | ContentBlock.toolUse id name input =>
    some (ContentBlock.toolResult id (jsonDumps (execute_tool table name input)))
  | _ => none

/-- Is the content part a tool-invocation request? -/
def isToolUseBlock : ContentBlock → Bool
  | ContentBlock.toolUse .. => true
  | _ => false

/-- A concrete two-tool-request reply used to witness the C8 round theorem. -/
def twoToolReply : Reply :=
  ⟨"tool_use",
    [ContentBlock.toolUse "id1" "alpha" [], ContentBlock.text "thinking",
      ContentBlock.toolUse "id2" "beta" []]⟩

/-! ## `query_papers_with_filters` (tools.py 98-118)

The papers dataframe is an abstract list of rows with the columns the
function touches.  Python truthiness drives each `if`: `None` and `0` skip
the `year`/`min_citations` filters, `None` and `False` skip `has_patents`. -/

/-- One row of the papers dataframe (the projected columns). -/
structure Paper where
  paperid : Int
  year : Int
  cited_by_count : Int
  patent_count : Int

/-- `df['cited_by_count'] >= min_citations` row predicate. -/
def citedAtLeast (m : Int) (p : Paper) : Bool :=
  decide (m ≤ p.cited_by_count)

/-- `df['patent_count'] > 0` row predicate. -/
def patentPos (p : Paper) : Bool :=
  decide (0 < p.patent_count)

/-- `sort_values('cited_by_count', ascending=False)` comparator. -/
def citedDesc (a b : Paper) : Bool :=
  decide (b.cited_by_count ≤ a.cited_by_count)

/-- `query_papers_with_filters`: apply each filter when its argument is
truthy, then sort by `cited_by_count` descending and keep the first
`limit` rows. -/
def query_papers_with_filters (papers : List Paper) (year : Option Int)
    (min_citations : Option Int) (has_patents : Option Bool) (limit : Nat) :
    List Paper :=
  let df := papers
  let df :=
    match year with
    | some y => if y == 0 then df else df.filter fun p => p.year == y
    | none => df
  let df :=
    match min_citations with
    | some m => if m == 0 then df else df.filter (citedAtLeast m)
    | none => df
  let df :=
    match has_patents with
    | some b => if b then df.filter patentPos else df
    | none => df
  (df.mergeSort citedDesc).take limit

/-! ## Theorems -/

theorem replaceFuel_of_not_contains (pat rep : List Char) :
    ∀ (fuel : Nat) (s : List Char), containsSubList pat s = false →
      replaceFuel pat rep fuel s = s := by
  intro fuel
  induction fuel with
  | zero => intro s _; rfl
  | succ n ih =>
    intro s h
    cases s with
    | nil => rfl
    | cons c rest =>
      rw [containsSubList, Bool.or_eq_false_iff] at h
      rw [replaceFuel, h.1, Bool.false_and, if_neg (by simp)]
      rw [ih rest h.2]

theorem strReplace_of_not_contains (s pat rep : String)
    (h : containsSubList pat.data s.data = false) :
    strReplace s pat rep = s := by
  rw [strReplace, replaceFuel_of_not_contains pat.data rep.data s.data.length s.data h]

theorem normalizeType_of_noTypeTokenSub (t : String) (h : noTypeTokenSub t = true) :
    normalizeType t = t := by
  rw [noTypeTokenSub, Bool.and_eq_true, Bool.and_eq_true] at h
  obtain ⟨⟨h1, h2⟩, h3⟩ := h
  rw [Bool.not_eq_true'] at h1 h2 h3
  rw [normalizeType, strReplace_of_not_contains _ _ _ h1,
    strReplace_of_not_contains _ _ _ h2, strReplace_of_not_contains _ _ _ h3]

/-- C2 counterexample: `'string'` is none of the three internal types, yet
normalization rewrites it to `'stringing'` instead of passing it through. -/
theorem normalizeType_not_passthrough :
    ("string" ≠ "int" ∧ "string" ≠ "str" ∧ "string" ≠ "bool")
      ∧ normalizeType "string" = "stringing"
      ∧ normalizeType "string" ≠ "string" := by
  refine ⟨⟨by decide, by decide, by decide⟩, by decide, by decide⟩

/-- C2 (amended): the three internal types map one-to-one to the external
primitives, and a type string in which none of `'int'`, `'str'`, `'bool'`
occurs as a substring is returned unchanged; strings containing one of these
substrings are rewritten by substring substitution instead. -/
theorem normalizeType_amended :
    normalizeType "int" = "integer"
      ∧ normalizeType "str" = "string"
      ∧ normalizeType "bool" = "boolean"
      ∧ ∀ t : String, noTypeTokenSub t = true → normalizeType t = t := by
  refine ⟨by decide, by decide, by decide, ?_⟩
  intro t h
  exact normalizeType_of_noTypeTokenSub t h

/-- Witness for the amended C2 at the concrete type string `'float'`. -/
theorem normalizeType_amended_witness : normalizeType "float" = "float" :=
  normalizeType_amended.2.2.2 "float" (by decide)

/-- C3 counterexample: re-normalizing the already-normalized type
`normalizeType "int" = "integer"` yields `'integereger'`, not `'integer'`. -/
theorem normalizeType_not_idempotent :
    normalizeType (normalizeType "int") ≠ normalizeType "int"
      ∧ normalizeType "integer" = "integereger" := by
  refine ⟨by decide, by decide⟩

/-- C3 (amended): normalization is not idempotent: re-normalizing the three
normalized primitives appends spurious suffixes; it is idempotent exactly on
type strings in which none of `'int'`, `'str'`, `'bool'` occurs. -/
theorem normalizeType_idempotence_amended :
    normalizeType (normalizeType "int") = "integereger"
      ∧ normalizeType (normalizeType "str") = "stringing"
      ∧ normalizeType (normalizeType "bool") = "booleanean"
      ∧ ∀ t : String, noTypeTokenSub t = true →
          normalizeType (normalizeType t) = normalizeType t := by
  refine ⟨by decide, by decide, by decide, ?_⟩
  intro t h
  rw [normalizeType_of_noTypeTokenSub t h, normalizeType_of_noTypeTokenSub t h]

/-- Witness for the amended C3 at the concrete type string `'float'`. -/
theorem normalizeType_idempotence_amended_witness :
    normalizeType (normalizeType "float") = normalizeType "float" :=
  normalizeType_idempotence_amended.2.2.2 "float" (by decide)

theorem mem_requiredOf (ps : List (String × ParamInfo)) (pn : String) :
    pn ∈ requiredOf ps ↔
      ∃ q : ParamInfo, (pn, q) ∈ ps
        ∧ q.optional.getD false = false ∧ q.default = none := by
  induction ps with
  | nil => simp [requiredOf]
  | cons hd tl ih =>
    obtain ⟨n, q⟩ := hd
    by_cases hopt : q.optional.getD false = true
    · rw [requiredOf, if_pos hopt]
      constructor
      · intro h
        obtain ⟨q2, hmem, h1, h2⟩ := ih.mp h
        exact ⟨q2, List.mem_cons_of_mem _ hmem, h1, h2⟩
      · rintro ⟨q2, hmem, h1, h2⟩
        rcases List.mem_cons.mp hmem with heq | hmem2
        · have hq : q2 = q := congrArg Prod.snd heq
          rw [hq] at h1
          rw [h1] at hopt
          exact absurd hopt (by simp)
        · exact ih.mpr ⟨q2, hmem2, h1, h2⟩
    · rw [Bool.not_eq_true] at hopt
      cases hdef : q.default with
      | some v =>
        rw [requiredOf, if_neg (by simp [hopt]), if_pos (by simp [hdef])]
        constructor
        · intro h
          obtain ⟨q2, hmem, h1, h2⟩ := ih.mp h
          exact ⟨q2, List.mem_cons_of_mem _ hmem, h1, h2⟩
        · rintro ⟨q2, hmem, h1, h2⟩
          rcases List.mem_cons.mp hmem with heq | hmem2
          · have hq : q2 = q := congrArg Prod.snd heq
            rw [hq, hdef] at h2
            exact absurd h2 (by simp)
          · exact ih.mpr ⟨q2, hmem2, h1, h2⟩
      | none =>
        rw [requiredOf, if_neg (by simp [hopt]), if_neg (by simp [hdef])]
        constructor
        · intro h
          rcases List.mem_cons.mp h with heq | hmem2
          · exact ⟨q, by rw [heq]; exact List.mem_cons_self _ _, hopt, hdef⟩
          · obtain ⟨q2, hmem, h1, h2⟩ := ih.mp hmem2
            exact ⟨q2, List.mem_cons_of_mem _ hmem, h1, h2⟩
        · rintro ⟨q2, hmem, h1, h2⟩
          rcases List.mem_cons.mp hmem with heq | hmem2
          · have hpn : pn = n := congrArg Prod.fst heq
            exact List.mem_cons.mpr (Or.inl hpn)
          · exact List.mem_cons.mpr (Or.inr (ih.mpr ⟨q2, hmem2, h1, h2⟩))

/-- C1: a parameter name appears in the `required` list of the schema derived
from a descriptor iff the descriptor has an entry for that name that neither
is marked optional nor carries a default value; the condition is evaluated
independently for each parameter entry. -/
theorem required_exactly_mandatory (name : String) (info : ToolDescription) (pn : String) :
    pn ∈ (toolSchemaOf name info).required ↔
      ∃ q : ParamInfo, (pn, q) ∈ info.parameters
        ∧ q.optional.getD false = false ∧ q.default = none :=
  mem_requiredOf info.parameters pn

/-- C4: for every tool name absent from the dispatch table and every argument
map, `_execute_tool` returns the error payload `{"error": "Unknown tool: <name>"}`;
being a total function of the embedding, it never raises. -/
theorem execute_unknown_tool_error (table : List (String × (Args → Except String Json)))
    (name : String) (args : Args) (h : table.lookup name = none) :
    execute_tool table name args
      = Json.obj [("error", Json.str ("Unknown tool: " ++ name))] := by
  rw [execute_tool, h]

/-- Witness for C4: invoking the unregistered name `"frobnicate"` against the
concrete `TOOLS` table returns the descriptive error payload. -/
theorem execute_unknown_tool_error_witness :
    execute_tool
      (TOOLS (fun _ => Except.ok Json.null) (fun _ => Except.ok Json.null)
        (fun _ => Except.ok Json.null) (fun _ => Except.ok Json.null)
        (fun _ => Except.ok Json.null) (fun _ => Except.ok Json.null))
      "frobnicate" []
      = Json.obj [("error", Json.str "Unknown tool: frobnicate")] :=
  execute_unknown_tool_error _ "frobnicate" [] rfl

/-- C5: if the dispatch table maps `name` to a function that faults on the
given arguments, `_execute_tool` returns the unknown-tool error shape carrying
exactly the fault's message, and the fault does not propagate. -/
theorem execute_fault_isolated (table : List (String × (Args → Except String Json)))
    (name : String) (args : Args) (f : Args → Except String Json) (msg : String)
    (hf : table.lookup name = some f) (hr : f args = Except.error msg) :
    execute_tool table name args = Json.obj [("error", Json.str msg)] := by
  simp only [execute_tool, hf, hr]

/-- Witness for C5: a registered tool that faults with message
`"division by zero"` yields the error payload with that exact message. -/
theorem execute_fault_isolated_witness :
    execute_tool
      (TOOLS (fun _ => Except.error "division by zero") (fun _ => Except.ok Json.null)
        (fun _ => Except.ok Json.null) (fun _ => Except.ok Json.null)
        (fun _ => Except.ok Json.null) (fun _ => Except.ok Json.null))
      "query_papers_by_year" []
      = Json.obj [("error", Json.str "division by zero")] :=
  execute_fault_isolated _ "query_papers_by_year" []
    (fun _ => Except.error "division by zero") "division by zero" rfl rfl

/-- C6 (evaluation at the failing input): a fenced `json` block whose body is
the JSON string `"data mark"` parses to a plain string, which satisfies
neither acceptance clause of the claim (a string has no `data`/`mark`
fields), yet the code accepts and returns it, because `'data' in spec` and
`'mark' in spec` are substring tests when `spec` is a string. -/
theorem extract_accepts_plain_string (parse : String → Except Unit Json)
    (h : parse "\x22data mark\x22" = Except.ok (Json.str "data mark")) :
    extractVegaLite parse "```json\n\x22data mark\x22\n```"
      = Except.ok (some (Json.str "data mark")) := by
  have hb : findBlocks "```json\n\x22data mark\x22\n```" = ["\x22data mark\x22\n"] := by
    decide
  have hs : pyStrip "\x22data mark\x22\n" = "\x22data mark\x22" := by decide
  rw [extractVegaLite, hb, scanBlocks, hs, h]
  rfl

/-- Witness for the C6 evaluation with a concrete parser table. -/
theorem extract_accepts_plain_string_witness :
    extractVegaLite (parseTable [("\x22data mark\x22", Json.str "data mark")])
      "```json\n\x22data mark\x22\n```"
      = Except.ok (some (Json.str "data mark")) :=
  extract_accepts_plain_string _ rfl

/-- C7 (evaluation at the failing input): a fenced `json` block whose body is
`true` parses successfully to a boolean, and the acceptance test
`'$schema' in spec` then raises an uncaught `TypeError` (`bool` is not a
container), so the extraction faults instead of skipping the candidate. -/
theorem extract_raises_on_noncontainer (parse : String → Except Unit Json)
    (h : parse "true" = Except.ok (Json.bool true)) :
    extractVegaLite parse "```json\ntrue\n```" = Except.error PyError.typeError := by
  have hb : findBlocks "```json\ntrue\n```" = ["true\n"] := by decide
  have hs : pyStrip "true\n" = "true" := by decide
  rw [extractVegaLite, hb, scanBlocks, hs, h]
  rfl

/-- Witness for the C7 evaluation with a concrete parser table. -/
theorem extract_raises_on_noncontainer_witness :
    extractVegaLite (parseTable [("true", Json.bool true)]) "```json\ntrue\n```"
      = Except.error PyError.typeError :=
  extract_raises_on_noncontainer _ rfl

theorem runTools_eq (table : List (String × (Args → Except String Json)))
    (bs : List ContentBlock) :
    runTools table bs = (bs.filterMap (recOfBlock table), bs.filterMap (trOfBlock table)) := by
  induction bs with
  | nil => rfl
  | cons b rest ih =>
    cases b with
    | text s => simpa [runTools, recOfBlock, trOfBlock, List.filterMap_cons] using ih
    | toolUse id name input =>
      simp [runTools, recOfBlock, trOfBlock, List.filterMap_cons, ih]
    | toolResult id content =>
      simpa [runTools, recOfBlock, trOfBlock, List.filterMap_cons] using ih

theorem length_filterMap_recOfBlock (table : List (String × (Args → Except String Json)))
    (bs : List ContentBlock) :
    (bs.filterMap (recOfBlock table)).length = (bs.filter isToolUseBlock).length := by
  induction bs with
  | nil => rfl
  | cons b rest ih =>
    cases b with
    | text s => simpa [recOfBlock, isToolUseBlock, List.filterMap_cons] using ih
    | toolUse id name input =>
      simp [recOfBlock, isToolUseBlock, List.filterMap_cons, ih]
    | toolResult id content =>
      simpa [recOfBlock, isToolUseBlock, List.filterMap_cons] using ih

/-- C8: on a reply whose stop condition is `tool_use`, one loop round appends
one `ToolCallRecord` per tool-invocation part (each recording tool name,
arguments and result, regardless of success or error) and exactly two history
messages — the assistant reply and a single combined user-role message
holding one `tool_result` part per invocation, tagged with its call id —
before the next scripted round is consumed. -/
theorem chat_round_records_and_replies
    (table : List (String × (Args → Except String Json)))
    (script : List Reply) (messages : List Message)
    (collected : List ToolCallRecord) (r next : Reply)
    (h : r.stop_reason = "tool_use") :
    chatLoop table (next :: script) messages collected r
      = chatLoop table script
          (messages ++ [⟨"assistant", MsgContent.parts r.content⟩,
            ⟨"user", MsgContent.parts (r.content.filterMap (trOfBlock table))⟩])
          (collected ++ r.content.filterMap (recOfBlock table)) next
      ∧ (r.content.filterMap (recOfBlock table)).length
          = (r.content.filter isToolUseBlock).length := by
  constructor
  · rw [chatLoop, if_pos (by simp [h]), runTools_eq]
  · exact length_filterMap_recOfBlock table r.content

/-- Witness for C8: a concrete round with two tool requests in one reply
yields two records and one combined tool-result message. -/
theorem chat_round_records_and_replies_witness :
    chatLoop [] [⟨"end_turn", []⟩] [] [] twoToolReply
      = chatLoop [] []
          ([] ++ [⟨"assistant", MsgContent.parts twoToolReply.content⟩,
            ⟨"user", MsgContent.parts (twoToolReply.content.filterMap (trOfBlock []))⟩])
          ([] ++ twoToolReply.content.filterMap (recOfBlock []))
          ⟨"end_turn", []⟩
      ∧ (twoToolReply.content.filterMap (recOfBlock [])).length
        = (twoToolReply.content.filter isToolUseBlock).length :=
  chat_round_records_and_replies [] [] [] [] twoToolReply ⟨"end_turn", []⟩ rfl

/-- C9: with the credential neither passed in nor present in the environment,
construction fails with the configuration error, and `chat` never inspects
the stored credential: its outcome is identical for any two agents. -/
theorem missing_credential_fails_at_construction :
    agent_init none none = Except.error "ANTHROPIC_API_KEY not found"
      ∧ ∀ (a1 a2 : Agent) (table : List (String × (Args → Except String Json)))
          (parse : String → Except Unit Json) (script : List Reply)
          (user_message : String),
          chat a1 table parse script user_message
            = chat a2 table parse script user_message :=
  ⟨rfl, fun _ _ _ _ _ _ => rfl⟩

theorem sortTake_patent_filter (d : List Paper) (limit : Nat) :
    (((d.filter patentPos).mergeSort citedDesc).take limit).all patentPos = true := by
  rw [List.all_eq_true]
  intro p hp
  have h1 := List.take_subset _ _ hp
  have h2 := List.mem_mergeSort.mp h1
  exact (List.mem_filter.mp h2).2

/-- C10: each filter of `query_papers_with_filters` applies only when its
argument is truthy: `year=0` and `min_citations=0` behave exactly as if the
filter were absent, `has_patents=False` is identical to not passing it (it
does not restrict to patent-free papers), and only `has_patents=True`
restricts the result (every returned row then has a positive patent count). -/
theorem filters_apply_only_when_truthy (papers : List Paper) (year : Option Int)
    (min_citations : Option Int) (has_patents : Option Bool) (limit : Nat) :
    query_papers_with_filters papers (some 0) min_citations has_patents limit
        = query_papers_with_filters papers none min_citations has_patents limit
      ∧ query_papers_with_filters papers year (some 0) has_patents limit
        = query_papers_with_filters papers year none has_patents limit
      ∧ query_papers_with_filters papers year min_citations (some false) limit
        = query_papers_with_filters papers year min_citations none limit
      ∧ (query_papers_with_filters papers year min_citations (some true) limit).all
          patentPos = true := by
  refine ⟨rfl, rfl, rfl, ?_⟩
  simp only [query_papers_with_filters]
  exact sortTake_patent_filter _ limit

end SciSciNet
